import Mathlib

/-!
Shallow embedding of the rate-limiting and abuse-protection engine of the
Saarthi Hospital Management API: `RateLimiter` and its `rate_limit` decorator
from `app/services/rate_limiter.py`, together with the counter-store
primitives it consumes from `app/services/cache_service.py` (`CacheService`).

The Redis-backed store is modelled sequentially as an association list of
entries; `available` mirrors `CacheService.is_available()` and `failing`
models a store whose every interaction raises (each `CacheService` method
wraps its Redis calls in `try/except`, turning such failures into
`None`/`False` returns without mutating the model state).

Python floats appear only as role multipliers with values 3.0, 2.0, 1.0 and
0.5; every one is an integer number of halves, so they are modelled exactly
by their numerator over 2 (`Mult.halves`).  Python `int()` on the
nonnegative exact product `requests * multiplier` is then `Nat` division by
2, which coincides with truncation toward zero.
-/

namespace Saarthi

/-- A value held by a store key: an integer counter (Redis `INCRBY` target) or
an opaque serialized object (block-info dictionaries etc.).  `INCRBY` on an
opaque value raises in Redis; the model returns an error for it. -/
inductive CVal where
  | int : Int → CVal
  | blob : CVal
deriving DecidableEq, Repr

/-- A store entry: its value and the TTL most recently applied to the key
(`none` when no expiry command was ever issued for it). -/
structure Entry where
  val : CVal
  ttl : Option Nat
deriving DecidableEq, Repr

/-- The counter store (`CacheService` over Redis), modelled sequentially. -/
structure Cache where
  available : Bool
  failing : Bool
  entries : List (String × Entry)
deriving DecidableEq, Repr

/-- Update-or-append on the underlying association list. -/
def setList (l : List (String × Entry)) (k : String) (e : Entry) :
    List (String × Entry) :=
  match l with
  | [] => [(k, e)]
  | (k', e') :: rest =>
    if k' == k then (k, e) :: rest else (k', e') :: setList rest k e

namespace Cache

/-- Look up the entry stored under key `k`. -/
def lookup (c : Cache) (k : String) : Option Entry :=
  (c.entries.find? (fun p => p.1 == k)).map (fun p => p.2)

/-- Store entry `e` under key `k`. -/
def setKey (c : Cache) (k : String) (e : Entry) : Cache :=
  { c with entries := setList c.entries k e }

end Cache

/-- The fully operational empty store. -/
def empty_cache : Cache := { available := true, failing := false, entries := [] }

/-- Python truthiness of the `Optional[int]` TTL argument (`if ttl and ...`):
`None` and `0` are falsy. -/
def ttlTruthy : Option Nat → Bool
  | none => false
  | some n => n != 0

/-- `CacheService.default_ttl` (fallback used by `set`). -/
def default_ttl : Nat := 3600

/-- `CacheService.increment(key, amount, ttl)`: queue `INCRBY`, and queue
`EXPIRE key ttl` only when `ttl` is truthy and the key did not exist before
the pipeline ran; return the post-increment count.  Any Redis failure is
caught internally and surfaces as `None` with the store unchanged. -/
def cache_increment (c : Cache) (key : String) (amount : Int)
    (ttl : Option Nat) : Option Int × Cache :=
  if ¬ c.available then (none, c)
  else if c.failing then (none, c)
  else
    match c.lookup key with
    | none =>
      let e : Entry := { val := CVal.int amount,
                         ttl := if ttlTruthy ttl then ttl else none }
      (some amount, c.setKey key e)
    | some { val := CVal.int n, ttl := t } =>
      (some (n + amount), c.setKey key { val := CVal.int (n + amount), ttl := t })
    | some { val := CVal.blob, ttl := _ } => (none, c)

/-- `CacheService.set(key, value, ttl)`: `SETEX` with `ttl or default_ttl`;
returns `False` (store unchanged) when unavailable or on a Redis error. -/
def cache_set (c : Cache) (key : String) (v : CVal) (ttl : Option Nat) :
    Bool × Cache :=
  if ¬ c.available then (false, c)
  else if c.failing then (false, c)
  else
    let t := match ttl with
      | some n => if n != 0 then n else default_ttl
      | none => default_ttl
    (true, c.setKey key { val := v, ttl := some t })

/-- `CacheService.exists(key)`: key-presence check; `False` when the store is
unavailable or the Redis call raises. -/
def cache_exists (c : Cache) (key : String) : Bool :=
  if ¬ c.available then false
  else if c.failing then false
  else (c.lookup key).isSome

/-- One request-budget row of `RateLimiter.default_limits`. -/
structure LimitConfig where
  requests : Nat
  window : Nat
deriving DecidableEq, Repr

/-- The built-in `api` category row (also the fallback of
`default_limits.get(limit_type, default_limits["api"])`). -/
def limits_api : LimitConfig := { requests := 100, window := 60 }

/-- `RateLimiter.default_limits`: the static category table. -/
def default_limits : String → Option LimitConfig
  | "auth" => some { requests := 5, window := 300 }
  | "api" => some limits_api
  | "upload" => some { requests := 10, window := 300 }
  | "emergency" => some { requests := 3, window := 60 }
  | "admin" => some { requests := 200, window := 60 }
  | _ => none

/-- A role multiplier: the Python float value `halves / 2`, exact for every
multiplier occurring in the source (3.0, 2.0, 1.0, 0.5). -/
structure Mult where
  halves : Nat
deriving DecidableEq, Repr

/-- The float 1.0. -/
def mult_one : Mult := { halves := 2 }

/-- The float 0.5. -/
def mult_half : Mult := { halves := 1 }

/-- `RateLimiter.user_role_multipliers`: the static role table. -/
def user_role_multipliers : String → Option Mult
  | "admin" => some { halves := 6 }
  | "hospital_admin" => some { halves := 4 }
  | "doctor" => some { halves := 4 }
  | "user" => some mult_one
  | "guest" => some mult_half
  | _ => none

/-- The decoded JWT as the rate limiter sees it: `none` when `get_jwt()`
raises (no verified token in the request context), `some roleClaim` when a
token is present, `roleClaim` being its `role` claim if any. -/
abbrev Jwt := Option (Option String)

/-- `RateLimiter._get_user_role_multiplier`: role from the token (claim
missing defaults to `"user"`), looked up in the static table with default
1.0; a missing token yields 0.5. -/
def get_user_role_multiplier (jwt : Jwt) : Mult :=
  match jwt with
  | none => mult_half
  | some roleClaim => (user_role_multipliers (roleClaim.getD "user")).getD mult_one

/-- Python `int(requests * multiplier)` on the exact nonnegative product:
truncation toward zero, i.e. `Nat` floor division by 2. -/
def apply_mult (requests : Nat) (m : Mult) : Nat :=
  requests * m.halves / 2

/-- Python `s.split(":")` on the character list. -/
def splitCols : List Char → List (List Char)
  | [] => [[]]
  | ch :: rest =>
    let r := splitCols rest
    if ch = ':' then [] :: r
    else
      match r with
      | [] => [[ch]]
      | g :: gs => (ch :: g) :: gs

/-- Python `s.split(":")`. -/
def colon_segments (s : String) : List String :=
  (splitCols s.data).map (fun g => String.mk g)

/-- Python `s.split(":") first element`. -/
def first_colon_segment (s : String) : String :=
  (colon_segments s).headD s

/-- Python `s.split(":") last element if ":" in s else s` (the two are
the same function). -/
def last_colon_segment (s : String) : String :=
  (colon_segments s).getLastD s

/-- `RateLimiter._get_rate_limit_key` after the window lookup: the counter
key for a bucket id. -/
def rate_limit_key (limit_type identifier : String) (windowStart : Nat) : String :=
  "rate_limit:" ++ limit_type ++ ":" ++ identifier ++ ":" ++ toString windowStart

/-- The `limit_info` dictionary built by `check_rate_limit`. -/
structure LimitInfo where
  limit : Nat
  remaining : Int
  reset_time : Nat
  retry_after : Int
  window : Nat
  identifier_type : String
deriving DecidableEq, Repr

/-- `RateLimiter.check_rate_limit(limit_type, custom_limit)` at time `now`
with resolved client identifier `identifier` and decoded token `jwt`.
Returns `(is_allowed, limit_info)` and the post-call store.  The `try`
block's two exception points are modelled where Python raises them: the
`KeyError` of `_get_rate_limit_key` when `limit_type` is not a built-in
category, and the `TypeError` of comparing the `None` returned by a failed
`increment` (plus the `ZeroDivisionError` of a zero custom window, reached
only after the increment); the `except` handler returns `(True, {})`. -/
def check_rate_limit (c : Cache) (now : Nat) (identifier : String) (jwt : Jwt)
    (limit_type : String) (custom_limit : Option LimitConfig) :
    (Bool × Option LimitInfo) × Cache :=
  if ¬ c.available then ((true, none), c)
  else
    let limit_config := custom_limit.getD ((default_limits limit_type).getD limits_api)
    let multiplier := get_user_role_multiplier jwt
    let adjusted_limit := apply_mult limit_config.requests multiplier
    let window := limit_config.window
    match default_limits limit_type with
    | none => ((true, none), c)
    | some key_config =>
      let key := rate_limit_key limit_type identifier (now / key_config.window)
      match cache_increment c key 1 (some window) with
      | (none, c1) => ((true, none), c1)
      | (some current_count, c1) =>
        if window = 0 then ((true, none), c1)
        else
          let is_allowed := decide (current_count ≤ (adjusted_limit : Int))
          let window_start := now / window * window
          let reset_time := window_start + window
          let info : LimitInfo := {
            limit := adjusted_limit
            remaining := max 0 ((adjusted_limit : Int) - current_count)
            reset_time := reset_time
            retry_after := if is_allowed then 0 else (reset_time : Int) - (now : Int)
            window := window
            identifier_type := first_colon_segment identifier }
          ((is_allowed, some info), c1)

/-- `RateLimiter.is_ip_blocked(ip)`. -/
def is_ip_blocked (c : Cache) (ip : String) : Bool :=
  if ¬ c.available then false
  else cache_exists c ("blocked_ip:" ++ ip)

/-- `RateLimiter.block_ip(ip, duration, reason)`: stores the block-info
object under `blocked_ip:<ip>` with TTL `duration`.  `CacheService.set`
never raises, so the function returns `True` whenever the store is
available. -/
def block_ip (c : Cache) (ip : String) (duration : Nat) : Bool × Cache :=
  if ¬ c.available then (false, c)
  else (true, (cache_set c ("blocked_ip:" ++ ip) CVal.blob (some duration)).2)

/-- `RateLimiter.check_brute_force_protection(identifier, max_attempts,
window)`: increment `brute_force:<identifier>`, and when the post-increment
count strictly exceeds `max_attempts`, block the last colon-segment of the
identifier and report `(True, attempts)`.  A failed increment surfaces as
`None or 0 = 0` attempts. -/
def check_brute_force_protection (c : Cache) (identifier : String)
    (max_attempts : Int) (window : Nat) : (Bool × Int) × Cache :=
  if ¬ c.available then ((false, 0), c)
  else
    let key := "brute_force:" ++ identifier
    let r := cache_increment c key 1 (some window)
    let attempts := r.1.getD 0
    if attempts > max_attempts then
      ((true, attempts), (block_ip r.2 (last_colon_segment identifier) window).2)
    else
      ((false, attempts), r.2)

/-- `RateLimiter.track_failed_login(username, ip)`: run the three
brute-force axes (address 10/900s, username 5/1800s, combo 3/600s) in order
and report whether any tripped. -/
def track_failed_login (c : Cache) (username ip : String) : Bool × Cache :=
  if ¬ c.available then (false, c)
  else
    let r1 := check_brute_force_protection c ip 10 900
    let r2 := check_brute_force_protection r1.2 ("user:" ++ username) 5 1800
    let r3 := check_brute_force_protection r2.2 ("combo:" ++ ip ++ ":" ++ username) 3 600
    (r1.1.1 || r2.1.1 || r3.1.1, r3.2)

/-- Terminal per-request states of the `rate_limit` decorator wrapper. -/
inductive Outcome where
  | blocked
  | rateLimited (info : Option LimitInfo)
  | handled (info : Option LimitInfo)
deriving DecidableEq, Repr

/-- The `rate_limit(limit_type, custom_limit)` decorator wrapper: reject as
`blocked` when the client address has an active block entry, otherwise
consult `check_rate_limit` and either reject as `rateLimited` or proceed to
the wrapped handler. -/
def rate_limit_wrapper (c : Cache) (now : Nat) (ip identifier : String)
    (jwt : Jwt) (limit_type : String) (custom_limit : Option LimitConfig) :
    Outcome × Cache :=
  if is_ip_blocked c ip then (Outcome.blocked, c)
  else
    let r := check_rate_limit c now identifier jwt limit_type custom_limit
    if r.1.1 then (Outcome.handled r.1.2, r.2)
    else (Outcome.rateLimited r.1.2, r.2)

/-- A sequence of `check_rate_limit` calls at the given times, threading the
store. -/
def run_checks (c : Cache) (times : List Nat) (identifier : String) (jwt : Jwt)
    (limit_type : String) (custom_limit : Option LimitConfig) :
    List (Bool × Option LimitInfo) × Cache :=
  match times with
  | [] => ([], c)
  | t :: ts =>
    let r := check_rate_limit c t identifier jwt limit_type custom_limit
    let rest := run_checks r.2 ts identifier jwt limit_type custom_limit
    (r.1 :: rest.1, rest.2)

/-- A sequence of `track_failed_login` calls for one username/address pair,
threading the store. -/
def run_failed_logins (c : Cache) (n : Nat) (username ip : String) :
    List Bool × Cache :=
  match n with
  | 0 => ([], c)
  | k + 1 =>
    let r := track_failed_login c username ip
    let rest := run_failed_logins r.2 k username ip
    (r.1 :: rest.1, rest.2)

/-- The integer counter held at key `k` (Redis treats an absent key as 0). -/
def counter_val (c : Cache) (k : String) : Int :=
  match c.lookup k with
  | some { val := CVal.int n, ttl := _ } => n
  | _ => 0

/-- Key `k` is absent or holds an integer counter, so that `INCRBY` on it
succeeds. -/
def clean_key (c : Cache) (k : String) : Prop :=
  c.lookup k = none ∨
    ∃ n t, c.lookup k = some { val := CVal.int n, ttl := t }

/-! ### Store lemmas -/

/-- String append acts on the character lists. -/
theorem data_app (s t : String) : (s ++ t).data = s.data ++ t.data := rfl

/-- No brute-force counter key is ever a block key: the two prefixes differ. -/
theorem brute_ne_blocked (a b : String) :
    ("brute_force:" ++ a) ≠ ("blocked_ip:" ++ b) := by
  intro h
  have h2 : ("brute_force:".data ++ a.data) = ("blocked_ip:".data ++ b.data) := by
    rw [← data_app, ← data_app, h]
  have h3 : (['b','r','u','t','e','_','f','o','r','c','e',':'] ++ a.data)
      = (['b','l','o','c','k','e','d','_','i','p',':'] ++ b.data) := h2
  simp at h3

theorem find_setList_self (l : List (String × Entry)) (k : String) (e : Entry) :
    (setList l k e).find? (fun p => p.1 == k) = some (k, e) := by
  induction l with
  | nil => simp [setList, List.find?]
  | cons hd tl ih =>
    obtain ⟨k', e'⟩ := hd
    by_cases hk : k' == k
    · simp [setList, hk, List.find?]
    · simp only [setList, hk]
      simp only [Bool.not_eq_true] at hk
      simp [List.find?, hk, ih]

theorem find_setList_ne (l : List (String × Entry)) (k k' : String) (e : Entry)
    (h : k' ≠ k) :
    (setList l k e).find? (fun p => p.1 == k') = l.find? (fun p => p.1 == k') := by
  induction l with
  | nil =>
    have hf : (k == k') = false := beq_eq_false_iff_ne.mpr (Ne.symm h)
    simp [setList, List.find?, hf]
  | cons hd tl ih =>
    obtain ⟨k1, e1⟩ := hd
    by_cases hk : k1 == k
    · have hkk : k1 = k := eq_of_beq hk
      subst hkk
      have hf : (k1 == k') = false := by
        simp [beq_iff_eq]
        exact fun hh => h hh.symm
      simp [setList, List.find?, hf]
    · simp only [setList, hk]
      simp [List.find?]
      cases hfind : (k1 == k') with
      | true => simp
      | false => simp [ih]

/-- Writing key `k` makes it hold `e`. -/
theorem lookup_setKey_self (c : Cache) (k : String) (e : Entry) :
    (c.setKey k e).lookup k = some e := by
  simp [Cache.lookup, Cache.setKey, find_setList_self]

/-- Writing key `k` leaves every other key unchanged. -/
theorem lookup_setKey_ne (c : Cache) (k k' : String) (e : Entry) (h : k' ≠ k) :
    (c.setKey k e).lookup k' = c.lookup k' := by
  simp [Cache.lookup, Cache.setKey, find_setList_ne _ _ _ _ h]

/-! ### Window counter engine lemmas -/

/-- One `check_rate_limit` call on a store whose counter for the current
bucket holds `m` (the key is absent when `m = 0`, as after a window reset):
the counter advances to `m + 1`, the decision is `m + 1 <= effectiveLimit`
on the post-increment count, `remaining` is clamped at 0, and the reported
limit is the effective limit. -/
theorem check_rate_limit_step
    (c : Cache) (now : Nat) (identifier : String) (jwt : Jwt)
    (cat : String) (custom : Option LimitConfig)
    (key_cfg cfg : LimitConfig) (m : Nat)
    (hA : c.available = true) (hF : c.failing = false)
    (hcat : default_limits cat = some key_cfg)
    (hcfg : custom.getD ((default_limits cat).getD limits_api) = cfg)
    (hw : cfg.window ≠ 0)
    (hm : c.lookup (rate_limit_key cat identifier (now / key_cfg.window)) =
      (if m = 0 then none
       else some { val := CVal.int (m : Int), ttl := some cfg.window })) :
    (check_rate_limit c now identifier jwt cat custom).2 =
      c.setKey (rate_limit_key cat identifier (now / key_cfg.window))
        { val := CVal.int ((m : Int) + 1), ttl := some cfg.window } ∧
    (check_rate_limit c now identifier jwt cat custom).1.1 =
      decide (((m : Int) + 1) ≤
        (apply_mult cfg.requests (get_user_role_multiplier jwt) : Int)) ∧
    ((check_rate_limit c now identifier jwt cat custom).1.2).map
        (fun i => i.remaining) =
      some (max 0 ((apply_mult cfg.requests (get_user_role_multiplier jwt) : Int)
        - ((m : Int) + 1))) ∧
    ((check_rate_limit c now identifier jwt cat custom).1.2).map
        (fun i => i.limit) =
      some (apply_mult cfg.requests (get_user_role_multiplier jwt)) := by
  have hbne : (cfg.window != 0) = true := bne_iff_ne.mpr hw
  rw [hcat] at hcfg
  simp only [Option.getD_some] at hcfg
  rcases Nat.eq_zero_or_pos m with h0 | hpos
  · subst h0
    rw [if_pos rfl] at hm
    simp [check_rate_limit, hA, hF, hcat, hcfg, cache_increment, hm, hw,
      ttlTruthy, hbne]
  · rw [if_neg (Nat.pos_iff_ne_zero.mp hpos)] at hm
    simp [check_rate_limit, hA, hF, hcat, hcfg, cache_increment, hm, hw]

/-- Counter evolution across a run of `check_rate_limit` calls that all fall
into the same fixed-window bucket `b`: the bucket counter advances by one per
call. -/
theorem run_checks_counter
    (identifier : String) (jwt : Jwt) (cat : String) (custom : Option LimitConfig)
    (key_cfg cfg : LimitConfig)
    (hcat : default_limits cat = some key_cfg)
    (hcfg : custom.getD ((default_limits cat).getD limits_api) = cfg)
    (hw : cfg.window ≠ 0) (b : Nat) :
    ∀ (ts : List Nat) (c : Cache) (m : Nat),
      c.available = true → c.failing = false →
      (∀ u ∈ ts, u / key_cfg.window = b) →
      c.lookup (rate_limit_key cat identifier b) =
        (if m = 0 then none
         else some { val := CVal.int (m : Int), ttl := some cfg.window }) →
      ((run_checks c ts identifier jwt cat custom).2.available = true ∧
       (run_checks c ts identifier jwt cat custom).2.failing = false ∧
       (run_checks c ts identifier jwt cat custom).2.lookup
           (rate_limit_key cat identifier b) =
         (if m + ts.length = 0 then none
          else some { val := CVal.int ((m + ts.length : Nat) : Int),
                      ttl := some cfg.window })) := by
  intro ts
  induction ts with
  | nil =>
    intro c m hA hF _ hm
    refine ⟨hA, hF, ?_⟩
    simpa [run_checks] using hm
  | cons t ts ih =>
    intro c m hA hF hts hm
    have hb : t / key_cfg.window = b := hts t (List.mem_cons_self t ts)
    have hstep := check_rate_limit_step c t identifier jwt cat custom key_cfg cfg m
      hA hF hcat hcfg hw (by rw [hb]; exact hm)
    have hc1 := hstep.1
    rw [hb] at hc1
    have hnext : ((check_rate_limit c t identifier jwt cat custom).2).lookup
        (rate_limit_key cat identifier b) =
        (if m + 1 = 0 then none
         else some { val := CVal.int ((m + 1 : Nat) : Int), ttl := some cfg.window }) := by
      rw [hc1, lookup_setKey_self]
      simp
    have hA1 : ((check_rate_limit c t identifier jwt cat custom).2).available = true := by
      rw [hc1]; exact hA
    have hF1 : ((check_rate_limit c t identifier jwt cat custom).2).failing = false := by
      rw [hc1]; exact hF
    have hrest := ih (check_rate_limit c t identifier jwt cat custom).2 (m + 1)
      hA1 hF1 (fun u hu => hts u (List.mem_cons_of_mem t hu)) hnext
    simp only [run_checks]
    refine ⟨hrest.1, hrest.2.1, ?_⟩
    have := hrest.2.2
    have harith : m + 1 + ts.length = m + (ts.length + 1) := by omega
    rw [harith] at this
    simpa [List.length_cons] using this

/-! ### Claim theorems -/

/-- C1: for a policy with effective budget `N = floor(requests * multiplier)`
after role scaling and window `W`, with the counter store available and the
window starting fresh, the request following `j` earlier requests in the
same fixed-window bucket is allowed exactly when its post-increment count
`j + 1` satisfies `j + 1 <= N`; its `remaining` is `max 0 (N - (j + 1))`,
so requests `1..N` are allowed and request `N + 1` is denied with
`remaining = 0`. -/
theorem check_window_correctness
    (c0 : Cache) (identifier : String) (jwt : Jwt) (cat : String)
    (custom : Option LimitConfig) (key_cfg cfg : LimitConfig)
    (ts : List Nat) (t b : Nat)
    (hA : c0.available = true) (hF : c0.failing = false)
    (hcat : default_limits cat = some key_cfg)
    (hcfg : custom.getD ((default_limits cat).getD limits_api) = cfg)
    (hw : cfg.window ≠ 0)
    (hts : ∀ u ∈ ts, u / key_cfg.window = b) (ht : t / key_cfg.window = b)
    (hfresh : c0.lookup (rate_limit_key cat identifier b) = none) :
    ((check_rate_limit (run_checks c0 ts identifier jwt cat custom).2
        t identifier jwt cat custom).1.1 =
      decide (((ts.length : Int) + 1) ≤
        (apply_mult cfg.requests (get_user_role_multiplier jwt) : Int))) ∧
    ((check_rate_limit (run_checks c0 ts identifier jwt cat custom).2
        t identifier jwt cat custom).1.2).map (fun i => i.remaining) =
      some (max 0 ((apply_mult cfg.requests (get_user_role_multiplier jwt) : Int)
        - ((ts.length : Int) + 1))) := by
  have hrun := run_checks_counter identifier jwt cat custom key_cfg cfg
    hcat hcfg hw b ts c0 0 hA hF hts (by simpa using hfresh)
  have hkey : (run_checks c0 ts identifier jwt cat custom).2.lookup
      (rate_limit_key cat identifier b) =
      (if ts.length = 0 then none
       else some { val := CVal.int ((ts.length : Nat) : Int),
                   ttl := some cfg.window }) := by
    simpa using hrun.2.2
  have hstep := check_rate_limit_step
    (run_checks c0 ts identifier jwt cat custom).2 t identifier jwt cat custom
    key_cfg cfg ts.length hrun.1 hrun.2.1 hcat hcfg hw (by rw [ht]; exact hkey)
  exact ⟨hstep.2.1, hstep.2.2.1⟩

/-- Witness for C1: category `auth` (budget 5, window 300s), role `user`
(multiplier 1.0), five requests at t=0 inside bucket 0; the sixth request at
t=10 is denied with `remaining = 0`. -/
theorem check_window_correctness_witness :
    (check_rate_limit (run_checks empty_cache [0, 0, 0, 0, 0] "ip:1.2.3.4"
        (some (some "user")) "auth" none).2 10 "ip:1.2.3.4"
        (some (some "user")) "auth" none).1.1 = false ∧
    ((check_rate_limit (run_checks empty_cache [0, 0, 0, 0, 0] "ip:1.2.3.4"
        (some (some "user")) "auth" none).2 10 "ip:1.2.3.4"
        (some (some "user")) "auth" none).1.2).map (fun i => i.remaining) =
      some 0 := by
  have h := check_window_correctness empty_cache "ip:1.2.3.4"
    (some (some "user")) "auth" none { requests := 5, window := 300 }
    { requests := 5, window := 300 } [0, 0, 0, 0, 0] 10 0
    rfl rfl (by decide) (by decide) (by decide) (by decide) (by decide) rfl
  refine ⟨?_, ?_⟩
  · rw [h.1]; decide
  · rw [h.2]; decide

/-- C2 (code bug): four failed logins for username `alice` from address
`1.1.1.1` trip the combo axis on the fourth call, but the resulting block is
keyed by the *username* (`blocked_ip:alice`), not by the network address:
`blocked_ip:1.1.1.1` does not exist and `is_ip_blocked "1.1.1.1"` stays
false, because `check_brute_force_protection` passes
`identifier.split(":")[-1] = "alice"` to `block_ip`. -/
theorem brute_force_block_keyed_by_username :
    (run_failed_logins empty_cache 4 "alice" "1.1.1.1").1 =
      [false, false, false, true] ∧
    cache_exists (run_failed_logins empty_cache 4 "alice" "1.1.1.1").2
      "blocked_ip:alice" = true ∧
    cache_exists (run_failed_logins empty_cache 4 "alice" "1.1.1.1").2
      "blocked_ip:1.1.1.1" = false ∧
    is_ip_blocked (run_failed_logins empty_cache 4 "alice" "1.1.1.1").2
      "1.1.1.1" = false := by
  decide

/-- C3 counterexample: a request carrying a decoded token with the
unrecognized role `superuser` resolves multiplier 1.0, not 0.5, and a
category budget of 10 yields effective limit 10, not 5. -/
theorem unknown_role_multiplier_cex :
    get_user_role_multiplier (some (some "superuser")) ≠ mult_half ∧
    apply_mult 10 (get_user_role_multiplier (some (some "superuser"))) ≠ 5 ∧
    apply_mult 10 (get_user_role_multiplier (some (some "superuser"))) = 10 := by
  decide

/-- C3 amended: only a request with no decoded token gets the 0.5
multiplier (budget 10 → effective 5); a decoded token whose role claim is
absent or not in the table gets the `user` baseline 1.0. -/
theorem unknown_role_multiplier_amended :
    get_user_role_multiplier none = mult_half ∧
    get_user_role_multiplier (some none) = mult_one ∧
    apply_mult 10 mult_half = 5 ∧
    ∀ role, user_role_multipliers role = none →
      get_user_role_multiplier (some (some role)) = mult_one := by
  refine ⟨by decide, by decide, by decide, ?_⟩
  intro role h
  simp [get_user_role_multiplier, h]

/-- Witness for the amended C3 at the concrete unknown role `superuser`. -/
theorem unknown_role_multiplier_amended_witness :
    user_role_multipliers "superuser" = none ∧
    get_user_role_multiplier (some (some "superuser")) = mult_one :=
  ⟨by decide, unknown_role_multiplier_amended.2.2.2 "superuser" (by decide)⟩

/-- C4 counterexample: with a custom policy of 1 request per window and no
decoded token (multiplier 0.5), the effective limit is
`int(1 * 0.5) = 0` — not `max(1, ...) = 1` — and even the first request of
a fresh window is denied. -/
theorem effective_limit_zero_cex :
    apply_mult 1 (get_user_role_multiplier none) = 0 ∧
    (check_rate_limit empty_cache 0 "ip:1.2.3.4" none "api"
      (some { requests := 1, window := 60 })).1.1 = false ∧
    ((check_rate_limit empty_cache 0 "ip:1.2.3.4" none "api"
      (some { requests := 1, window := 60 })).1.2).map (fun i => i.limit) =
      some 0 := by
  decide

/-- C4 amended: the effective limit is `floor(requests * multiplier)` with
no lower bound; whenever that floor is 0, every request — including the
first one against a fresh window counter — is denied, with reported
limit 0. -/
theorem effective_limit_floor_amended
    (c : Cache) (now : Nat) (identifier : String) (jwt : Jwt) (cat : String)
    (custom : Option LimitConfig) (key_cfg cfg : LimitConfig)
    (hA : c.available = true) (hF : c.failing = false)
    (hcat : default_limits cat = some key_cfg)
    (hcfg : custom.getD ((default_limits cat).getD limits_api) = cfg)
    (hw : cfg.window ≠ 0)
    (hfresh : c.lookup (rate_limit_key cat identifier (now / key_cfg.window)) = none)
    (h0 : apply_mult cfg.requests (get_user_role_multiplier jwt) = 0) :
    (check_rate_limit c now identifier jwt cat custom).1.1 = false ∧
    ((check_rate_limit c now identifier jwt cat custom).1.2).map
      (fun i => i.limit) = some 0 := by
  have hstep := check_rate_limit_step c now identifier jwt cat custom
    key_cfg cfg 0 hA hF hcat hcfg hw (by simpa using hfresh)
  refine ⟨?_, ?_⟩
  · rw [hstep.2.1, h0]; decide
  · rw [hstep.2.2.2, h0]

/-- Witness for the amended C4: custom policy of 1 request, no token. -/
theorem effective_limit_floor_amended_witness :
    (check_rate_limit empty_cache 0 "ip:1.2.3.4" none "api"
      (some { requests := 1, window := 60 })).1.1 = false ∧
    ((check_rate_limit empty_cache 0 "ip:1.2.3.4" none "api"
      (some { requests := 1, window := 60 })).1.2).map (fun i => i.limit) =
      some 0 :=
  effective_limit_floor_amended empty_cache 0 "ip:1.2.3.4" none "api"
    (some { requests := 1, window := 60 }) limits_api
    { requests := 1, window := 60 }
    rfl rfl (by decide) (by decide) (by decide) rfl (by decide)

/-- C6: an active block entry for the client address makes the decorator
wrapper reject with the blocked outcome and leave the store untouched — in
particular no quota counter is incremented and the quota check result never
matters. -/
theorem block_precedence
    (c : Cache) (now : Nat) (ip identifier : String) (jwt : Jwt)
    (cat : String) (custom : Option LimitConfig)
    (hb : is_ip_blocked c ip = true) :
    rate_limit_wrapper c now ip identifier jwt cat custom =
      (Outcome.blocked, c) := by
  simp [rate_limit_wrapper, hb]

/-- Witness for C6: a store holding a block for `1.2.3.4` with plenty of
quota remaining. -/
theorem block_precedence_witness :
    is_ip_blocked (block_ip empty_cache "1.2.3.4" 3600).2 "1.2.3.4" = true ∧
    rate_limit_wrapper (block_ip empty_cache "1.2.3.4" 3600).2 0 "1.2.3.4"
      "ip:1.2.3.4" none "api" none =
      (Outcome.blocked, (block_ip empty_cache "1.2.3.4" 3600).2) :=
  ⟨by decide,
   block_precedence (block_ip empty_cache "1.2.3.4" 3600).2 0 "1.2.3.4"
     "ip:1.2.3.4" none "api" none (by decide)⟩

/-- C7: when the counter store is unavailable, and likewise when every store
interaction raises, the quota check returns allowed with empty limit
metadata and leaves the store unchanged; no exception reaches the caller. -/
theorem check_rate_limit_fail_open
    (c : Cache) (now : Nat) (identifier : String) (jwt : Jwt)
    (cat : String) (custom : Option LimitConfig)
    (h : c.available = false ∨ c.failing = true) :
    (check_rate_limit c now identifier jwt cat custom).1 = (true, none) ∧
    (check_rate_limit c now identifier jwt cat custom).2 = c := by
  rcases h with h | h
  · constructor <;> simp [check_rate_limit, h]
  · by_cases hA : c.available = true
    · cases hd : default_limits cat with
      | none => constructor <;> simp [check_rate_limit, hA, hd]
      | some kc =>
        constructor <;> simp [check_rate_limit, hA, hd, cache_increment, h]
    · have hA0 : c.available = false := by simpa using hA
      constructor <;> simp [check_rate_limit, hA0]

/-- Witness for C7: one unavailable store and one failing store. -/
theorem check_rate_limit_fail_open_witness :
    (check_rate_limit { available := false, failing := false, entries := [] }
      0 "ip:1.2.3.4" none "api" none).1 = (true, none) ∧
    (check_rate_limit { available := true, failing := true, entries := [] }
      0 "ip:1.2.3.4" none "api" none).1 = (true, none) :=
  ⟨(check_rate_limit_fail_open _ 0 "ip:1.2.3.4" none "api" none (Or.inl rfl)).1,
   (check_rate_limit_fail_open _ 0 "ip:1.2.3.4" none "api" none (Or.inr rfl)).1⟩

/-- C8: the emergency scenario (budget 3, window 60s, identity
`ip:9.9.9.9`, multiplier 1.0): requests 1-3 at t=0 are allowed with
remaining 2, 1, 0; request 4 at t=10 is denied with `retry_after = 50`;
request 5 at t=61 falls in a fresh bucket and is allowed with remaining 2. -/
theorem emergency_scenario :
    ((run_checks empty_cache [0, 0, 0, 10, 61] "ip:9.9.9.9"
        (some (some "user")) "emergency" none).1.map (fun p => p.1)) =
      [true, true, true, false, true] ∧
    ((run_checks empty_cache [0, 0, 0, 10, 61] "ip:9.9.9.9"
        (some (some "user")) "emergency" none).1.map
        (fun p => p.2.map (fun i => i.remaining))) =
      [some 2, some 1, some 0, some 0, some 2] ∧
    ((run_checks empty_cache [0, 0, 0, 10, 61] "ip:9.9.9.9"
        (some (some "user")) "emergency" none).1.map
        (fun p => p.2.map (fun i => i.retry_after))) =
      [some 0, some 0, some 0, some 50, some 0] := by
  decide

/-- C9: incrementing a key that already exists returns the incremented
count and leaves the TTL of the key exactly as it was — an expiry is set only
when the key did not exist before the call. -/
theorem increment_ttl_frame
    (c : Cache) (k : String) (amt : Int) (ttl : Option Nat)
    (n : Int) (t : Option Nat)
    (hA : c.available = true) (hF : c.failing = false)
    (h : c.lookup k = some { val := CVal.int n, ttl := t }) :
    (cache_increment c k amt ttl).1 = some (n + amt) ∧
    ((cache_increment c k amt ttl).2.lookup k).map (fun e => e.ttl) =
      some t := by
  constructor <;> simp [cache_increment, hA, hF, h, lookup_setKey_self]

/-- Witness for C9: a key holding 7 with remaining TTL 42, incremented with
a new TTL of 600 — the count becomes 8 and the TTL stays 42. -/
theorem increment_ttl_frame_witness :
    (cache_increment
      { available := true, failing := false,
        entries := [("x", { val := CVal.int 7, ttl := some 42 })] }
      "x" 1 (some 600)).1 = some 8 ∧
    ((cache_increment
      { available := true, failing := false,
        entries := [("x", { val := CVal.int 7, ttl := some 42 })] }
      "x" 1 (some 600)).2.lookup "x").map (fun e => e.ttl) = some (some 42) :=
  increment_ttl_frame _ "x" 1 (some 600) 7 (some 42) rfl rfl (by decide)

/-- C10: a quota check for a category outside the built-in table, with no
custom limit, fails open: the limit-config lookup falls back to the `api`
row, but the counter-key construction raises a `KeyError` before any
increment, the handler swallows it, and the call returns allowed with empty
metadata and an unchanged store. -/
theorem unknown_category_fail_open
    (c : Cache) (now : Nat) (identifier : String) (jwt : Jwt) (cat : String)
    (hA : c.available = true) (hcat : default_limits cat = none) :
    check_rate_limit c now identifier jwt cat none = ((true, none), c) ∧
    (default_limits cat).getD limits_api = limits_api := by
  constructor
  · simp [check_rate_limit, hA, hcat]
  · simp [hcat]

/-- Witness for C10 at the concrete unknown category `nonsense`. -/
theorem unknown_category_fail_open_witness :
    check_rate_limit empty_cache 0 "ip:1.2.3.4" none "nonsense" none =
      ((true, none), empty_cache) ∧
    (default_limits "nonsense").getD limits_api = limits_api :=
  unknown_category_fail_open empty_cache 0 "ip:1.2.3.4" none "nonsense"
    rfl (by decide)

/-- C5 counterexample: after exactly three failed logins for `alice` from
`1.1.1.1` the combo counter stands at 3, no axis has tripped (3 does not
exceed 3), no call reported a block, and no block entry of any kind
exists. -/
theorem combo_three_attempts_cex :
    (run_failed_logins empty_cache 3 "alice" "1.1.1.1").1 =
      [false, false, false] ∧
    counter_val (run_failed_logins empty_cache 3 "alice" "1.1.1.1").2
      "brute_force:combo:1.1.1.1:alice" = 3 ∧
    cache_exists (run_failed_logins empty_cache 3 "alice" "1.1.1.1").2
      "blocked_ip:alice" = false ∧
    is_ip_blocked (run_failed_logins empty_cache 3 "alice" "1.1.1.1").2
      "1.1.1.1" = false := by
  decide

/-! ### Brute-force detector lemmas -/

theorem block_ip_cache (c : Cache) (ip : String) (d : Nat)
    (hA : c.available = true) (hF : c.failing = false) :
    (block_ip c ip d).2 = c.setKey ("blocked_ip:" ++ ip)
      { val := CVal.blob,
        ttl := some (if d != 0 then d else default_ttl) } := by
  simp [block_ip, cache_set, hA, hF]

theorem cache_increment_of_clean (c : Cache) (k : String) (w : Nat)
    (hA : c.available = true) (hF : c.failing = false)
    (hcl : clean_key c k) :
    ∃ t2, cache_increment c k 1 (some w) =
        (some (counter_val c k + 1),
         c.setKey k { val := CVal.int (counter_val c k + 1), ttl := t2 }) := by
  rcases hcl with h0 | ⟨n, t, hn⟩
  · exact ⟨if ttlTruthy (some w) then some w else none,
      by simp [cache_increment, hA, hF, h0, counter_val]⟩
  · exact ⟨t, by simp [cache_increment, hA, hF, hn, counter_val]⟩

/-- One `check_brute_force_protection` call on a store whose axis counter is
absent or integer-valued: the counter advances by one, a trip is reported
exactly when the post-increment count strictly exceeds the maximum, the
store stays operational, and only the axis counter and (on a trip) the
block key derived from the identifier are written. -/
theorem check_brute_force_step
    (c : Cache) (idf : String) (maxA : Int) (w : Nat)
    (hA : c.available = true) (hF : c.failing = false)
    (hcl : clean_key c ("brute_force:" ++ idf)) :
    (check_brute_force_protection c idf maxA w).1 =
      (decide (counter_val c ("brute_force:" ++ idf) + 1 > maxA),
       counter_val c ("brute_force:" ++ idf) + 1) ∧
    counter_val (check_brute_force_protection c idf maxA w).2
        ("brute_force:" ++ idf) =
      counter_val c ("brute_force:" ++ idf) + 1 ∧
    (check_brute_force_protection c idf maxA w).2.available = true ∧
    (check_brute_force_protection c idf maxA w).2.failing = false ∧
    ∀ k, k ≠ ("brute_force:" ++ idf) →
      k ≠ ("blocked_ip:" ++ last_colon_segment idf) →
      (check_brute_force_protection c idf maxA w).2.lookup k = c.lookup k := by
  obtain ⟨t2, hinc⟩ :=
    cache_increment_of_clean c ("brute_force:" ++ idf) w hA hF hcl
  have hA1 : (c.setKey ("brute_force:" ++ idf)
      { val := CVal.int (counter_val c ("brute_force:" ++ idf) + 1),
        ttl := t2 }).available = true := hA
  have hF1 : (c.setKey ("brute_force:" ++ idf)
      { val := CVal.int (counter_val c ("brute_force:" ++ idf) + 1),
        ttl := t2 }).failing = false := hF
  have hne : ("brute_force:" ++ idf) ≠
      ("blocked_ip:" ++ last_colon_segment idf) := brute_ne_blocked _ _
  by_cases hgt : counter_val c ("brute_force:" ++ idf) + 1 > maxA
  · have hch : check_brute_force_protection c idf maxA w =
        ((true, counter_val c ("brute_force:" ++ idf) + 1),
         (c.setKey ("brute_force:" ++ idf)
            { val := CVal.int (counter_val c ("brute_force:" ++ idf) + 1),
              ttl := t2 }).setKey
           ("blocked_ip:" ++ last_colon_segment idf)
           { val := CVal.blob,
             ttl := some (if w != 0 then w else default_ttl) }) := by
      rw [check_brute_force_protection]
      simp only [hA, Bool.not_eq_true]
      rw [hinc]
      simp only [Option.getD_some, if_pos hgt,
        block_ip_cache _ _ _ hA1 hF1]
      simp
    refine ⟨?_, ?_, ?_, ?_, ?_⟩
    · rw [hch]; simp [hgt]
    · rw [hch, counter_val, lookup_setKey_ne _ _ _ _ hne, lookup_setKey_self]
    · rw [hch]; exact hA
    · rw [hch]; exact hF
    · intro k hk1 hk2
      rw [hch, lookup_setKey_ne _ _ _ _ hk2, lookup_setKey_ne _ _ _ _ hk1]
  · have hch : check_brute_force_protection c idf maxA w =
        ((false, counter_val c ("brute_force:" ++ idf) + 1),
         c.setKey ("brute_force:" ++ idf)
           { val := CVal.int (counter_val c ("brute_force:" ++ idf) + 1),
             ttl := t2 }) := by
      rw [check_brute_force_protection]
      simp only [hA, Bool.not_eq_true]
      rw [hinc]
      simp only [Option.getD_some, if_neg hgt]
      simp
    refine ⟨?_, ?_, ?_, ?_, ?_⟩
    · rw [hch]; simp [hgt]
    · rw [hch, counter_val, lookup_setKey_self]
    · rw [hch]; exact hA
    · rw [hch]; exact hF
    · intro k hk1 _
      rw [hch, lookup_setKey_ne _ _ _ _ hk1]

theorem counter_val_congr {c c2 : Cache} {k : String}
    (h : c2.lookup k = c.lookup k) : counter_val c2 k = counter_val c k := by
  rw [counter_val, counter_val, h]

theorem clean_key_congr {c c2 : Cache} {k : String}
    (h : c2.lookup k = c.lookup k) (hc : clean_key c k) : clean_key c2 k := by
  simp only [clean_key, h]
  exact hc

/-- C5 amended: every `track_failed_login` call increments all three axis
counters by one and reports a block exactly when some axis post-increment
count strictly exceeds its maximum (address 10, username 5, combo 3); in
particular the combo axis trips on the 4th failed login for a pair, not the
3rd. -/
theorem failed_login_axes_amended
    (c : Cache) (u ip : String)
    (hA : c.available = true) (hF : c.failing = false)
    (h1 : clean_key c ("brute_force:" ++ ip))
    (h2 : clean_key c ("brute_force:" ++ ("user:" ++ u)))
    (h3 : clean_key c ("brute_force:" ++ ("combo:" ++ ip ++ ":" ++ u)))
    (d12 : ("brute_force:" ++ ip) ≠ ("brute_force:" ++ ("user:" ++ u)))
    (d13 : ("brute_force:" ++ ip) ≠
      ("brute_force:" ++ ("combo:" ++ ip ++ ":" ++ u)))
    (d23 : ("brute_force:" ++ ("user:" ++ u)) ≠
      ("brute_force:" ++ ("combo:" ++ ip ++ ":" ++ u))) :
    (track_failed_login c u ip).1 =
      (decide (counter_val c ("brute_force:" ++ ip) + 1 > 10) ||
       decide (counter_val c ("brute_force:" ++ ("user:" ++ u)) + 1 > 5) ||
       decide (counter_val c
         ("brute_force:" ++ ("combo:" ++ ip ++ ":" ++ u)) + 1 > 3)) ∧
    counter_val (track_failed_login c u ip).2 ("brute_force:" ++ ip) =
      counter_val c ("brute_force:" ++ ip) + 1 ∧
    counter_val (track_failed_login c u ip).2
        ("brute_force:" ++ ("user:" ++ u)) =
      counter_val c ("brute_force:" ++ ("user:" ++ u)) + 1 ∧
    counter_val (track_failed_login c u ip).2
        ("brute_force:" ++ ("combo:" ++ ip ++ ":" ++ u)) =
      counter_val c ("brute_force:" ++ ("combo:" ++ ip ++ ":" ++ u)) + 1 := by
  obtain ⟨s1res, s1cnt, s1A, s1F, s1fr⟩ :=
    check_brute_force_step c ip 10 900 hA hF h1
  have e21 : ((check_brute_force_protection c ip 10 900).2).lookup
      ("brute_force:" ++ ("user:" ++ u)) =
      c.lookup ("brute_force:" ++ ("user:" ++ u)) :=
    s1fr _ (Ne.symm d12) (brute_ne_blocked _ _)
  have e31 : ((check_brute_force_protection c ip 10 900).2).lookup
      ("brute_force:" ++ ("combo:" ++ ip ++ ":" ++ u)) =
      c.lookup ("brute_force:" ++ ("combo:" ++ ip ++ ":" ++ u)) :=
    s1fr _ (Ne.symm d13) (brute_ne_blocked _ _)
  obtain ⟨s2res, s2cnt, s2A, s2F, s2fr⟩ :=
    check_brute_force_step (check_brute_force_protection c ip 10 900).2
      ("user:" ++ u) 5 1800 s1A s1F (clean_key_congr e21 h2)
  have e32 : ((check_brute_force_protection
        (check_brute_force_protection c ip 10 900).2
        ("user:" ++ u) 5 1800).2).lookup
      ("brute_force:" ++ ("combo:" ++ ip ++ ":" ++ u)) =
      ((check_brute_force_protection c ip 10 900).2).lookup
        ("brute_force:" ++ ("combo:" ++ ip ++ ":" ++ u)) :=
    s2fr _ (Ne.symm d23) (brute_ne_blocked _ _)
  have e12 : ((check_brute_force_protection
        (check_brute_force_protection c ip 10 900).2
        ("user:" ++ u) 5 1800).2).lookup ("brute_force:" ++ ip) =
      ((check_brute_force_protection c ip 10 900).2).lookup
        ("brute_force:" ++ ip) :=
    s2fr _ d12 (brute_ne_blocked _ _)
  obtain ⟨s3res, s3cnt, s3A, s3F, s3fr⟩ :=
    check_brute_force_step
      (check_brute_force_protection
        (check_brute_force_protection c ip 10 900).2
        ("user:" ++ u) 5 1800).2
      ("combo:" ++ ip ++ ":" ++ u) 3 600 s2A s2F
      (clean_key_congr (e32.trans e31) h3)
  have e13 : ((check_brute_force_protection
        (check_brute_force_protection
          (check_brute_force_protection c ip 10 900).2
          ("user:" ++ u) 5 1800).2
        ("combo:" ++ ip ++ ":" ++ u) 3 600).2).lookup
      ("brute_force:" ++ ip) =
      ((check_brute_force_protection
        (check_brute_force_protection c ip 10 900).2
        ("user:" ++ u) 5 1800).2).lookup ("brute_force:" ++ ip) :=
    s3fr _ d13 (brute_ne_blocked _ _)
  have e23 : ((check_brute_force_protection
        (check_brute_force_protection
          (check_brute_force_protection c ip 10 900).2
          ("user:" ++ u) 5 1800).2
        ("combo:" ++ ip ++ ":" ++ u) 3 600).2).lookup
      ("brute_force:" ++ ("user:" ++ u)) =
      ((check_brute_force_protection
        (check_brute_force_protection c ip 10 900).2
        ("user:" ++ u) 5 1800).2).lookup ("brute_force:" ++ ("user:" ++ u)) :=
    s3fr _ d23 (brute_ne_blocked _ _)
  have htr1 : (track_failed_login c u ip).1 =
      ((check_brute_force_protection c ip 10 900).1.1 ||
       (check_brute_force_protection
         (check_brute_force_protection c ip 10 900).2
         ("user:" ++ u) 5 1800).1.1 ||
       (check_brute_force_protection
         (check_brute_force_protection
           (check_brute_force_protection c ip 10 900).2
           ("user:" ++ u) 5 1800).2
         ("combo:" ++ ip ++ ":" ++ u) 3 600).1.1) := by
    simp [track_failed_login, hA]
  have htr2 : (track_failed_login c u ip).2 =
      (check_brute_force_protection
        (check_brute_force_protection
          (check_brute_force_protection c ip 10 900).2
          ("user:" ++ u) 5 1800).2
        ("combo:" ++ ip ++ ":" ++ u) 3 600).2 := by
    simp [track_failed_login, hA]
  refine ⟨?_, ?_, ?_, ?_⟩
  · rw [htr1, s1res, s2res, s3res,
      counter_val_congr e21, counter_val_congr (e32.trans e31)]
  · rw [htr2, counter_val_congr e13, counter_val_congr e12, s1cnt]
  · rw [htr2, counter_val_congr e23, s2cnt, counter_val_congr e21]
  · rw [htr2, s3cnt, counter_val_congr (e32.trans e31)]

/-- Witness for the amended C5: starting from the store produced by three
failed logins for `alice` from `1.1.1.1` (all axis counters at 3), the
fourth call reports a block — the combo axis post-increment count 4
exceeds its maximum 3. -/
theorem failed_login_axes_amended_witness :
    (track_failed_login (run_failed_logins empty_cache 3 "alice" "1.1.1.1").2
      "alice" "1.1.1.1").1 = true := by
  have h := failed_login_axes_amended
    (run_failed_logins empty_cache 3 "alice" "1.1.1.1").2 "alice" "1.1.1.1"
    (by decide) (by decide)
    (Or.inr ⟨3, some 900, by decide⟩)
    (Or.inr ⟨3, some 1800, by decide⟩)
    (Or.inr ⟨3, some 600, by decide⟩)
    (by decide) (by decide) (by decide)
  rw [h.1]
  decide

end Saarthi
